import Mathlib

/-!
Verification of the leagueshots shot-map application (src/app.py).

The app loads one CSV per league, tags rows with their league, concatenates
the tables, normalizes missing categorical values to "Unknown", applies a
cascade of filters (league, team, player, game, situation, body part,
result), drops rows missing plotting columns, and renders the survivors as a
scatter plot with a colour legend.

Rows are embedded as records whose categorical and numeric columns are
`Option`-valued (`none` models a pandas NaN / missing cell).  Numeric cells
use `ℚ`; only their presence matters to the properties below.
-/

set_option maxHeartbeats 1000000

namespace Leagueshots

/-- A raw CSV row, before the loader tags it with its league.  Every column
may be absent (pandas NaN is `none`). -/
structure RawRow where
  team : Option String
  player : Option String
  game : Option String
  situation : Option String
  body_part : Option String
  result : Option String
  location_x : Option ℚ
  location_y : Option ℚ
  xg : Option ℚ
deriving DecidableEq, Repr

/-- A row of the combined DataFrame: a raw row plus the synthetic `league`
column assigned by the loader (`df['league'] = league`, app.py line 24). -/
structure Row where
  league : String
  team : Option String
  player : Option String
  game : Option String
  situation : Option String
  body_part : Option String
  result : Option String
  location_x : Option ℚ
  location_y : Option ℚ
  xg : Option ℚ
deriving DecidableEq, Repr

/-- `df['league'] = league` while loading one file (app.py line 24). -/
def tagLeague (lg : String) (r : RawRow) : Row :=
  { league := lg, team := r.team, player := r.player, game := r.game,
    situation := r.situation, body_part := r.body_part, result := r.result,
    location_x := r.location_x, location_y := r.location_y, xg := r.xg }

/-- `combined_shots_df[col].fillna('Unknown')` for the six categorical
filter columns (app.py lines 34-39). -/
def fillUnknown (r : Row) : Row :=
  { r with
    team := some (r.team.getD "Unknown"),
    player := some (r.player.getD "Unknown"),
    game := some (r.game.getD "Unknown"),
    situation := some (r.situation.getD "Unknown"),
    body_part := some (r.body_part.getD "Unknown"),
    result := some (r.result.getD "Unknown") }

/-- Concatenate the per-league tables and normalize missing categorical
values (app.py lines 31-39). -/
def combinedOf (tables : List (String × List Row)) : List Row :=
  ((tables.map Prod.snd).flatten).map fillUnknown

/-- `LEAGUE_FILES` (app.py lines 10-16). -/
def LEAGUE_FILES : List (String × String) :=
  [("ENG-Premier League", "epl_shots.csv"),
   ("ESP-La Liga", "laliga_shots.csv"),
   ("FRA-Ligue 1", "fra_shots.csv"),
   ("GER-Bundesliga", "ger_shots.csv"),
   ("ITA-Serie A", "ita_shots.csv")]

/-- The user-visible error emitted when a source file is missing
(app.py line 27). -/
def missingMsg (path : String) : String :=
  "Error: " ++ path ++ " not found. Please make sure the data file is in the same directory."

/-- The load loop (app.py lines 19-28): read each configured file in order,
tag its rows with the league; on the first missing file the session stops
with an error (`st.error` + `st.stop`), yielding no dataset at all.
`read` models `pd.read_csv`: `none` is a `FileNotFoundError`. -/
def loadLeagues (read : String → Option (List RawRow)) :
    List (String × String) → Except String (List (String × List Row))
  | [] => Except.ok []
  | (lg, path) :: rest =>
    match read path with
    | none => Except.error (missingMsg path)
    | some tbl => (loadLeagues read rest).map (fun acc => (lg, tbl.map (tagLeague lg)) :: acc)

/-- The sidebar selections the user can make during one rerun. -/
structure Selections where
  league : String
  teams : List String
  players : List String
  games : List String
  situations : List String
  body_parts : List String
  results : List String
deriving Repr

/-- `filtered_by_league = combined_shots_df[combined_shots_df['league'] == selected_league]`
(app.py line 52). -/
def filtered_by_league (df : List Row) (sel : String) : List Row :=
  df.filter (fun r => r.league == sel)

/-- The team stage (app.py lines 62-65): if "All" is among the selected
teams the league subset passes through unchanged, otherwise rows are kept
when their `team` value is a member of the selection (pandas `isin`; a NaN
cell is never a member). -/
def filtered_by_teams (df : List Row) (selected_teams : List String) : List Row :=
  if selected_teams.contains "All" then df
  else df.filter (fun r =>
    match r.team with
    | some t => selected_teams.contains t
    | none => false)

/-- One of the five later stages (app.py lines 91-104): Python's
`if selected_xs:` skips the stage on an empty selection, otherwise keeps
rows whose column value is a member of the selection. -/
def stageFilter (get : Row → Option String) (sel : List String) (df : List Row) : List Row :=
  if sel.isEmpty then df
  else df.filter (fun r =>
    match get r with
    | some v => sel.contains v
    | none => false)

/-- `filtered_shots.dropna(subset=['location_x', 'location_y', 'xg', 'result'])`
(app.py line 107). -/
def dropPlotNa (df : List Row) : List Row :=
  df.filter (fun r =>
    r.location_x.isSome && r.location_y.isSome && r.xg.isSome && r.result.isSome)

/-- Rows surviving the league stage. -/
def afterLeague (df : List Row) (s : Selections) : List Row :=
  filtered_by_league df s.league

/-- Rows surviving the team stage. -/
def afterTeams (df : List Row) (s : Selections) : List Row :=
  filtered_by_teams (afterLeague df s) s.teams

/-- Rows surviving the player stage (app.py lines 91-92). -/
def afterPlayers (df : List Row) (s : Selections) : List Row :=
  stageFilter Row.player s.players (afterTeams df s)

/-- Rows surviving the match stage (app.py lines 94-95). -/
def afterGames (df : List Row) (s : Selections) : List Row :=
  stageFilter Row.game s.games (afterPlayers df s)

/-- Rows surviving the situation stage (app.py lines 97-98). -/
def afterSituations (df : List Row) (s : Selections) : List Row :=
  stageFilter Row.situation s.situations (afterGames df s)

/-- Rows surviving the body-part stage (app.py lines 100-101). -/
def afterBodyParts (df : List Row) (s : Selections) : List Row :=
  stageFilter Row.body_part s.body_parts (afterSituations df s)

/-- Rows surviving the result stage (app.py lines 103-104). -/
def afterResults (df : List Row) (s : Selections) : List Row :=
  stageFilter Row.result s.results (afterBodyParts df s)

/-- The final `filtered_shots` DataFrame handed to the renderer: the full
cascade followed by the validity pass (app.py line 107). -/
def renderedRows (df : List Row) (s : Selections) : List Row :=
  dropPlotNa (afterResults df s)

/-- `len(filtered_shots)` shown in the sidebar (app.py line 111); it is
computed after the line-107 reassignment, i.e. on the post-dropna rows. -/
def shotCount (df : List Row) (s : Selections) : Nat :=
  (renderedRows df s).length

/-- The canonical default league hard-coded in the selectbox call
(app.py line 49). -/
def canonicalLeague : String := "ENG-Premier League"

/-- Python `list.index(x)`: index of the first occurrence, or an exception
(modelled as `none`) when `x` is absent. -/
def pyIndex (x : String) : List String → Option Nat
  | [] => none
  | y :: ys => if y == x then some 0 else (pyIndex x ys).map (· + 1)

/-- `selected_league = st.sidebar.selectbox("Select League", leagues, index=leagues.index('ENG-Premier League'))`
(app.py lines 48-49): the default selection is the option at the computed
index; when `leagues.index` raises `ValueError` the rerun dies with an
exception (`none` — no selection is ever made). -/
def selected_league (leagues : List String) : Option String :=
  match pyIndex canonicalLeague leagues with
  | some i => leagues[i]?
  | none => none

/-- `result_colors` (app.py lines 126-133), in the dict's insertion order. -/
def result_colors : List (String × String) :=
  [("Goal", "yellow"),
   ("Missed Shot", "red"),
   ("Blocked Shot", "gray"),
   ("Saved Shot", "blue"),
   ("Shot On Post", "orange"),
   ("Unknown", "purple")]

/-- The colour a scatter marker receives:
`filtered_shots['result'].map(result_colors)` (app.py line 138).
`Series.map` with a dict yields NaN (`none`) for a key absent from the
dict — there is no fallback on this path. -/
def markerColor (result : String) : Option String :=
  result_colors.lookup result

/-- The face colour of a legend handle:
`result_colors.get(result, 'black')` (app.py line 165). -/
def legendFaceColor (result : String) : String :=
  (result_colors.lookup result).getD "black"

/-- `present_results = filtered_shots['result'].unique()` (app.py line 163):
the distinct `result` values of the final filtered rows (a NaN cell, were
one to survive, contributes nothing a legend lookup could match). -/
def present_results (df : List Row) : List String :=
  (df.filterMap Row.result).dedup

/-- The legend labels (app.py lines 164-166): iterate over the keys of
`result_colors` and keep those occurring in `present_results`. -/
def legendEntries (df : List Row) : List String :=
  (result_colors.map Prod.fst).filter (fun k => (df.filterMap Row.result).contains k)

/-- One whole rerun of the script, from loading to the rows handed to the
renderer: a missing source file short-circuits everything after line 28
(`st.stop()`), so no filter UI and no dataset exist on that branch. -/
def session (read : String → Option (List RawRow)) (s : Selections) :
    Except String (List Row) :=
  (loadLeagues read LEAGUE_FILES).map (fun tables => renderedRows (combinedOf tables) s)

/-! ### Concrete sample data used by witnesses and counterexamples -/

/-- A fully populated Premier-League shot that ends in a goal. -/
def goalRow : Row :=
  { league := "ENG-Premier League", team := some "Arsenal", player := some "Saka",
    game := some "Arsenal vs Spurs", situation := some "Open Play",
    body_part := some "Right Foot", result := some "Goal",
    location_x := some 1, location_y := some 1, xg := some 1 }

/-- Like `goalRow` but with a `result` value outside the known palette. -/
def ownGoalRow : Row :=
  { goalRow with result := some "Own Goal" }

/-- Like `goalRow` but with a missing `xg` cell, so it is unplottable. -/
def noXgRow : Row :=
  { goalRow with xg := none }

/-- The default selections: premier league, team "All", everything else empty. -/
def allSel : Selections :=
  { league := "ENG-Premier League", teams := ["All"], players := [], games := [],
    situations := [], body_parts := [], results := [] }

/-- A reader that finds no file at all (every `pd.read_csv` raises). -/
def noFiles : String → Option (List RawRow) := fun _ => none

/-! ### Helper lemmas -/

/-- An empty team selection neither contains "All" nor any team value, so the
stage keeps nothing. -/
lemma filtered_by_teams_nil (df : List Row) : filtered_by_teams df [] = [] := by
  rw [filtered_by_teams]
  simp only [List.contains, List.elem_nil, Bool.false_eq_true, if_false]
  apply List.filter_eq_nil_iff.mpr
  intro r _
  cases r.team <;> simp

/-- A later filter stage with an empty selection is skipped. -/
lemma stageFilter_nil (get : Row → Option String) (df : List Row) :
    stageFilter get [] df = df := rfl

lemma filtered_by_teams_length_le (df : List Row) (sel : List String) :
    (filtered_by_teams df sel).length ≤ df.length := by
  rw [filtered_by_teams]
  split
  · exact le_refl _
  · exact List.length_filter_le _ _

lemma stageFilter_length_le (get : Row → Option String) (sel : List String) (df : List Row) :
    (stageFilter get sel df).length ≤ df.length := by
  rw [stageFilter]
  split
  · exact le_refl _
  · exact List.length_filter_le _ _

lemma filtered_by_teams_sublist (df : List Row) (sel : List String) :
    (filtered_by_teams df sel).Sublist df := by
  rw [filtered_by_teams]
  split
  · exact List.Sublist.refl _
  · exact List.filter_sublist _

lemma stageFilter_sublist (get : Row → Option String) (sel : List String) (df : List Row) :
    (stageFilter get sel df).Sublist df := by
  rw [stageFilter]
  split
  · exact List.Sublist.refl _
  · exact List.filter_sublist _

/-- When the sought value occurs in the list, `pyIndex` returns the index of
an occurrence. -/
lemma pyIndex_of_mem {x : String} : ∀ {l : List String}, x ∈ l →
    ∃ i, pyIndex x l = some i ∧ l[i]? = some x
  | [], h => absurd h (List.not_mem_nil x)
  | y :: ys, h => by
    by_cases hxy : (y == x) = true
    · refine ⟨0, by simp [pyIndex, hxy], ?_⟩
      have : y = x := by simpa [beq_iff_eq] using hxy
      simp [this]
    · have hx : x ∈ ys := by
        rcases List.mem_cons.mp h with rfl | h'
        · exact absurd (by simp) hxy
        · exact h'
      obtain ⟨i, h1, h2⟩ := pyIndex_of_mem hx
      exact ⟨i + 1, by simp [pyIndex, hxy, h1], by simpa using h2⟩

/-- When the sought value is absent, `pyIndex` returns `none` (Python's
`list.index` raises `ValueError`). -/
lemma pyIndex_of_not_mem {x : String} : ∀ {l : List String}, x ∉ l →
    pyIndex x l = none
  | [], _ => rfl
  | y :: ys, h => by
    have hxy : ¬(y == x) = true := by
      simp only [beq_iff_eq]
      rintro rfl
      exact h (List.mem_cons_self _ _)
    have hx : x ∉ ys := fun h' => h (List.mem_cons_of_mem _ h')
    simp [pyIndex, hxy, pyIndex_of_not_mem hx]

/-- If some configured source is unreadable, the load loop fails with the
error message naming the earliest missing file, and yields no tables. -/
lemma loadLeagues_error_of_missing (read : String → Option (List RawRow)) :
    ∀ files : List (String × String),
      (∃ p ∈ files.map Prod.snd, read p = none) →
      ∃ p ∈ files.map Prod.snd, read p = none ∧
        loadLeagues read files = Except.error (missingMsg p)
  | [], h => by simp at h
  | (lg, path) :: rest, h => by
    cases hr : read path with
    | none => exact ⟨path, by simp, hr, by simp [loadLeagues, hr]⟩
    | some tbl =>
      have htail : ∃ p ∈ rest.map Prod.snd, read p = none := by
        obtain ⟨p, hp, hpn⟩ := h
        rw [List.map_cons] at hp
        rcases List.mem_cons.mp hp with rfl | hp'
        · rw [hr] at hpn; cases hpn
        · exact ⟨p, hp', hpn⟩
      obtain ⟨p, hp, hpn, heq⟩ := loadLeagues_error_of_missing read rest htail
      refine ⟨p, ?_, hpn, ?_⟩
      · rw [List.map_cons]
        exact List.mem_cons_of_mem _ hp
      · simp [loadLeagues, hr, heq, Except.map]

/-! ### Claim theorems -/

/-- C1 (counterexample): a rendered row whose `result` ("Own Goal") lies
outside the palette is present in the final filtered rows, yet the legend is
empty — the legend omits a present `result` value, contradicting the claim
that every present value gets an entry. -/
theorem legend_omits_present_out_of_palette_value :
    renderedRows [ownGoalRow] allSel = [ownGoalRow] ∧
    ownGoalRow.result = some "Own Goal" ∧
    legendEntries (renderedRows [ownGoalRow] allSel) = [] := by
  refine ⟨by decide, rfl, by decide⟩

/-- C1 (amended): the legend contains exactly one entry per `result` value
that is both a key of the fixed palette and present in the final filtered
rows; present values outside the palette get no entry, and absent values get
none either. -/
theorem legend_eq_palette_inter_present (df : List Row) (k : String) :
    (k ∈ legendEntries df ↔
      k ∈ result_colors.map Prod.fst ∧ ∃ r ∈ df, r.result = some k) ∧
    (legendEntries df).Nodup := by
  constructor
  · rw [legendEntries, List.mem_filter]
    constructor
    · rintro ⟨hk, hc⟩
      refine ⟨hk, ?_⟩
      have := List.mem_filterMap.mp (List.elem_iff.mp hc)
      simpa using this
    · rintro ⟨hk, r, hr, hres⟩
      exact ⟨hk, List.elem_iff.mpr (List.mem_filterMap.mpr ⟨r, hr, hres⟩)⟩
  · exact List.Nodup.filter _ (by decide)

/-- C2 (counterexample): the team stage with an empty selection is not the
identity — on a one-row league subset it returns the empty set. -/
theorem team_stage_empty_selection_not_identity :
    filtered_by_teams [goalRow] [] = [] ∧ filtered_by_teams [goalRow] [] ≠ [goalRow] := by
  refine ⟨filtered_by_teams_nil _, ?_⟩
  rw [filtered_by_teams_nil]
  exact fun h => List.cons_ne_nil goalRow [] h.symm

/-- C2 (amended): for the player, match, situation, body-part and result
stages (every instance of `stageFilter`) an empty selection leaves the row
set unchanged, but the team stage with an empty selection returns the empty
set rather than acting as the identity. -/
theorem empty_selection_stage_semantics (get : Row → Option String) (df : List Row) :
    stageFilter get [] df = df ∧ filtered_by_teams df [] = [] :=
  ⟨stageFilter_nil get df, filtered_by_teams_nil df⟩

/-- C3 (counterexample): when the canonical league is absent from the
available leagues, the default selection is not the alphabetically first
league — `leagues.index` raises, so no selection is made at all. -/
theorem default_league_no_alphabetical_fallback :
    selected_league ["ESP-La Liga"] = none ∧
    selected_league ["ESP-La Liga"] ≠ some "ESP-La Liga" := by
  refine ⟨rfl, by decide⟩

/-- C3 (amended): the default selected league is the canonical league
("ENG-Premier League") when it is among the available leagues; otherwise the
index computation fails (Python `ValueError`) and no league is selected —
there is no alphabetical fallback. -/
theorem default_league_canonical_or_error (leagues : List String) :
    (canonicalLeague ∈ leagues → selected_league leagues = some canonicalLeague) ∧
    (canonicalLeague ∉ leagues → selected_league leagues = none) := by
  constructor
  · intro h
    obtain ⟨i, h1, h2⟩ := pyIndex_of_mem h
    rw [selected_league, h1]
    exact h2
  · intro h
    rw [selected_league, pyIndex_of_not_mem h]

/-- Witness for `default_league_canonical_or_error` at a concrete league
list containing the canonical league. -/
theorem default_league_canonical_witness :
    canonicalLeague ∈ ["ENG-Premier League", "ESP-La Liga"] ∧
    selected_league ["ENG-Premier League", "ESP-La Liga"] = some canonicalLeague :=
  ⟨by decide, (default_league_canonical_or_error ["ENG-Premier League", "ESP-La Liga"]).1 (by decide)⟩

/-- C4 (counterexample): a record whose `result` is outside the palette gets
no marker colour at all (`Series.map` yields NaN), not an explicit fallback
colour. -/
theorem marker_out_of_palette_no_color :
    markerColor "Own Goal" = none := rfl

/-- C4 (amended): marker colours follow the fixed palette exactly for its
six keys, but a `result` outside the palette receives an absent colour (NaN)
on the scatter path; only the legend face colour falls back to black. -/
theorem marker_palette_exact (r : String) :
    (markerColor "Goal" = some "yellow" ∧
     markerColor "Missed Shot" = some "red" ∧
     markerColor "Blocked Shot" = some "gray" ∧
     markerColor "Saved Shot" = some "blue" ∧
     markerColor "Shot On Post" = some "orange" ∧
     markerColor "Unknown" = some "purple") ∧
    (r ∉ result_colors.map Prod.fst → markerColor r = none ∧ legendFaceColor r = "black") := by
  refine ⟨⟨rfl, rfl, rfl, rfl, rfl, rfl⟩, ?_⟩
  intro h
  simp only [result_colors, List.map_cons, List.map_nil, List.mem_cons,
    List.not_mem_nil, or_false, not_or] at h
  obtain ⟨h1, h2, h3, h4, h5, h6⟩ := h
  have e1 : (r == "Goal") = false := beq_eq_false_iff_ne.mpr h1
  have e2 : (r == "Missed Shot") = false := beq_eq_false_iff_ne.mpr h2
  have e3 : (r == "Blocked Shot") = false := beq_eq_false_iff_ne.mpr h3
  have e4 : (r == "Saved Shot") = false := beq_eq_false_iff_ne.mpr h4
  have e5 : (r == "Shot On Post") = false := beq_eq_false_iff_ne.mpr h5
  have e6 : (r == "Unknown") = false := beq_eq_false_iff_ne.mpr h6
  constructor <;>
    simp [markerColor, legendFaceColor, result_colors, List.lookup,
      e1, e2, e3, e4, e5, e6]

/-- Witness for `marker_palette_exact` at the out-of-palette value
"Woodwork". -/
theorem marker_palette_exact_witness :
    "Woodwork" ∉ result_colors.map Prod.fst ∧
    markerColor "Woodwork" = none ∧ legendFaceColor "Woodwork" = "black" :=
  ⟨by decide, (marker_palette_exact "Woodwork").2 (by decide)⟩

/-- C5: whenever the team selection contains "All", the team stage returns
the league subset unchanged, whatever else is co-selected. -/
theorem team_all_short_circuits (df : List Row) (sel : List String)
    (h : "All" ∈ sel) : filtered_by_teams df sel = df := by
  rw [filtered_by_teams, if_pos (List.elem_iff.mpr h)]

/-- Witness for `team_all_short_circuits`: "All" co-selected with a specific
team still passes the whole subset through. -/
theorem team_all_short_circuits_witness :
    "All" ∈ ["Chelsea", "All"] ∧
    filtered_by_teams [goalRow, ownGoalRow] ["Chelsea", "All"] = [goalRow, ownGoalRow] :=
  ⟨by decide, team_all_short_circuits [goalRow, ownGoalRow] ["Chelsea", "All"] (by decide)⟩

/-- C6: every stage of the cascade — league, team, player, match, situation,
body part, result, and the final validity pass — yields a sublist (hence a
subset) of its input, so the row count never grows from one stage to the
next. -/
theorem cascade_monotone_narrowing (df : List Row) (s : Selections) :
    ((afterLeague df s).Sublist df ∧
     (afterTeams df s).Sublist (afterLeague df s) ∧
     (afterPlayers df s).Sublist (afterTeams df s) ∧
     (afterGames df s).Sublist (afterPlayers df s) ∧
     (afterSituations df s).Sublist (afterGames df s) ∧
     (afterBodyParts df s).Sublist (afterSituations df s) ∧
     (afterResults df s).Sublist (afterBodyParts df s) ∧
     (renderedRows df s).Sublist (afterResults df s)) ∧
    ((afterLeague df s).length ≤ df.length ∧
     (afterTeams df s).length ≤ (afterLeague df s).length ∧
     (afterPlayers df s).length ≤ (afterTeams df s).length ∧
     (afterGames df s).length ≤ (afterPlayers df s).length ∧
     (afterSituations df s).length ≤ (afterGames df s).length ∧
     (afterBodyParts df s).length ≤ (afterSituations df s).length ∧
     (afterResults df s).length ≤ (afterBodyParts df s).length ∧
     (renderedRows df s).length ≤ (afterResults df s).length) := by
  refine ⟨⟨List.filter_sublist _, filtered_by_teams_sublist _ _, stageFilter_sublist _ _ _,
      stageFilter_sublist _ _ _, stageFilter_sublist _ _ _, stageFilter_sublist _ _ _,
      stageFilter_sublist _ _ _, List.filter_sublist _⟩,
    List.length_filter_le _ _, filtered_by_teams_length_le _ _, stageFilter_length_le _ _ _,
    stageFilter_length_le _ _ _, stageFilter_length_le _ _ _, stageFilter_length_le _ _ _,
    stageFilter_length_le _ _ _, List.length_filter_le _ _⟩

/-- C7: every row handed to the renderer has non-absent `location_x`,
`location_y`, `xg` and `result` cells, for any dataset and any selections. -/
theorem rendered_rows_plot_fields_present (df : List Row) (s : Selections)
    (r : Row) (h : r ∈ renderedRows df s) :
    r.location_x.isSome ∧ r.location_y.isSome ∧ r.xg.isSome ∧ r.result.isSome := by
  have hp := (List.mem_filter.mp h).2
  simpa [Bool.and_assoc] using hp

/-- Witness for `rendered_rows_plot_fields_present` on a concrete rendered
row. -/
theorem rendered_rows_plot_fields_present_witness :
    goalRow ∈ renderedRows [goalRow] allSel ∧
    (goalRow.location_x.isSome ∧ goalRow.location_y.isSome ∧
     goalRow.xg.isSome ∧ goalRow.result.isSome) :=
  ⟨by decide, rendered_rows_plot_fields_present [goalRow] allSel goalRow (by decide)⟩

/-- C8: if any configured league source is unavailable, the whole session
aborts with the error message naming a missing source file, and no row set
is ever produced (the `Except.error` branch carries no partial dataset). -/
theorem missing_source_aborts_session (read : String → Option (List RawRow))
    (s : Selections) (h : ∃ p ∈ LEAGUE_FILES.map Prod.snd, read p = none) :
    ∃ p ∈ LEAGUE_FILES.map Prod.snd, read p = none ∧
      session read s = Except.error (missingMsg p) := by
  obtain ⟨p, hp, hpn, heq⟩ := loadLeagues_error_of_missing read LEAGUE_FILES h
  exact ⟨p, hp, hpn, by simp [session, heq, Except.map]⟩

/-- Witness for `missing_source_aborts_session` with a reader that finds no
file. -/
theorem missing_source_aborts_session_witness :
    (∃ p ∈ LEAGUE_FILES.map Prod.snd, noFiles p = none) ∧
    ∃ p ∈ LEAGUE_FILES.map Prod.snd, noFiles p = none ∧
      session noFiles allSel = Except.error (missingMsg p) :=
  ⟨⟨"epl_shots.csv", by decide, rfl⟩,
   missing_source_aborts_session noFiles allSel ⟨"epl_shots.csv", by decide, rfl⟩⟩

/-- C9: an empty team multiselect (no "All") filters by membership in the
empty set, so the team stage returns the empty row set for every league
subset. -/
theorem team_empty_selection_excludes_everything (df : List Row) :
    filtered_by_teams df [] = [] :=
  filtered_by_teams_nil df

/-- C10: the displayed shot count is the number of rows remaining after the
validity pass — the very rows that are plotted — and on a concrete input
with one unplottable row it differs from the pre-pass count. -/
theorem shot_count_is_post_validity_count :
    (∀ (df : List Row) (s : Selections),
      shotCount df s = (dropPlotNa (afterResults df s)).length) ∧
    shotCount [noXgRow] allSel = 0 ∧
    (afterResults [noXgRow] allSel).length = 1 := by
  exact ⟨fun df s => rfl, by decide, by decide⟩

end Leagueshots
